import Mathlib

/-!
Verification of the decision core of the Smart ATM cash distribution
system: the priority engine, refill cadence recommendation, routing
extraction, emergency insertion, forecasting fallback cascade and the
training job orchestrator, shallowly embedded over rational arithmetic.

Python floating point numbers are modelled as rationals.  Python's
built-in `round(x, n)` (round half to even at `n` decimal digits) is
modelled by `pyround`, and `int(x)` (truncation toward zero) by
`pytrunc`.
-/

namespace SmartAtm

/-- Round a rational to the nearest integer, ties to even: the rounding
mode of Python's built-in round. -/
def roundHalfEven (q : ℚ) : ℤ :=
  let f : ℤ := ⌊q⌋
  if q - f < 1/2 then f
  else if 1/2 < q - f then f + 1
  else if f % 2 = 0 then f else f + 1

/-- Python round(q, n): round half to even at n decimal digits. -/
def pyround (q : ℚ) (n : ℕ) : ℚ :=
  (roundHalfEven (q * 10 ^ n) : ℚ) / 10 ^ n

/-- Python int(q): truncation toward zero. -/
def pytrunc (q : ℚ) : ℤ :=
  if 0 ≤ q then ⌊q⌋ else ⌈q⌉

theorem roundHalfEven_intCast (z : ℤ) : roundHalfEven (z : ℚ) = z := by
  simp [roundHalfEven, Int.floor_intCast]

/-- pyround is the identity on rationals that are already exact at the
requested number of digits. -/
theorem pyround_eq_self {q : ℚ} {n : ℕ} (z : ℤ) (h : q * 10 ^ n = z) :
    pyround q n = q := by
  have hpow : ((10 : ℚ) ^ n) ≠ 0 := by positivity
  unfold pyround
  rw [h, roundHalfEven_intCast, ← h]
  field_simp

/-- np.mean of a list of rationals (0 on the empty list, as a junk value;
NumPy would emit NaN there, and all uses below are guarded). -/
def listMean (l : List ℚ) : ℚ := l.sum / l.length

/-- Population variance, the square of np.std. -/
def listPopVar (l : List ℚ) : ℚ :=
  (l.map (fun x => (x - listMean l) ^ 2)).sum / l.length

/-- np.max on a nonempty list (junk value 0 on the empty list, where
NumPy would raise; all uses below are guarded). -/
def listMax : List ℚ → ℚ
  | [] => 0
  | x :: xs => xs.foldl max x

/-!
## Priority engine
Translated from `SmartRecommendationEngine` in backend/ai_recommendations.py.
-/

/-- The urgency step function of calculate_priority_score
(backend/ai_recommendations.py lines 52-61): a step function of
current_balance / capacity. -/
def urgency_factor (balanceRatio : ℚ) : ℚ :=
  if balanceRatio < 1/5 then 3
  else if balanceRatio < 2/5 then 2
  else if balanceRatio < 3/5 then 3/2
  else 1

/-- SmartRecommendationEngine.calculate_priority_score
(backend/ai_recommendations.py lines 27-66). -/
def calculate_priority_score (predicted_demand capacity : ℚ)
    (days_since_last_refill : ℚ) (current_balance : ℚ) : ℚ :=
  if capacity ≤ 0 then 0
  else
    let demandRatio := predicted_demand / capacity
    let timeFactor := min (days_since_last_refill / 7) 2
    let urgency := urgency_factor (current_balance / capacity)
    pyround (demandRatio * timeFactor * urgency) 4

/-- The criticality classification of identify_critical_atms
(backend/ai_recommendations.py lines 191-199). -/
def classify_criticality (threshold score : ℚ) : String :=
  if 5/2 ≤ score then "critical"
  else if threshold ≤ score then "high"
  else if 1 ≤ score then "medium"
  else "low"

/-- Result record of get_optimal_refill_frequency.  The insufficient-data
branch of the Python code returns a dict without the frequency and
days_until_empty keys, hence the Option types.  The variability key
(round(std/mean, 2)) is omitted: its value is irrational (np.std is a
square root) and no comparison in the code depends on it. -/
structure RefillRecommendation where
  recommended_days : ℤ
  frequency : Option String
  confidence : String
  reason : String
  avg_daily_demand : Option ℚ
  max_daily_demand : Option ℚ
  days_until_empty : Option ℚ
  deriving Repr, DecidableEq

/-- The comparison cv < c of get_optimal_refill_frequency, where
cv = np.std(demands) / np.mean(demands) if the mean is positive and 0
otherwise.  np.std is the square root of the population variance, so for
a positive threshold c and a positive mean the comparison cv < c is
equivalent to the rational comparison variance < c^2 * mean^2, which is
the form used here; when the mean is not positive the code sets cv = 0,
so the comparison degenerates to 0 < c. -/
def cv_lt (demands : List ℚ) (c : ℚ) : Bool :=
  let avg := listMean demands
  if 0 < avg then decide (listPopVar demands < c ^ 2 * avg ^ 2)
  else decide (0 < c)

/-- The (safety_buffer, confidence) selection of
get_optimal_refill_frequency (backend/ai_recommendations.py lines
100-110). -/
def safety_buffer (predicted_demands : List ℚ) : ℚ × String :=
  if cv_lt predicted_demands (1/5) then (4/5, "high")
  else if cv_lt predicted_demands (2/5) then (3/5, "medium")
  else (2/5, "low")

/-- The days_until_empty estimate of get_optimal_refill_frequency
(backend/ai_recommendations.py lines 95-98). -/
def days_until_empty_calc (predicted_demands : List ℚ)
    (current_balance : ℚ) : ℚ :=
  if 0 < listMean predicted_demands then current_balance / listMean predicted_demands
  else 30

/-- The recommended_days computation of get_optimal_refill_frequency
(backend/ai_recommendations.py lines 113-114): int truncation of
days_until_empty times the safety buffer, then clamping into 1..14. -/
def recommended_days_calc (predicted_demands : List ℚ)
    (current_balance : ℚ) : ℤ :=
  max 1 (min (pytrunc (days_until_empty_calc predicted_demands current_balance *
    (safety_buffer predicted_demands).1)) 14)

/-- The (frequency, reason) bucketing of get_optimal_refill_frequency
(backend/ai_recommendations.py lines 117-128). -/
def frequency_bucket (recommendedDays : ℤ) : String × String :=
  if recommendedDays ≤ 2 then
    ("daily", "High demand requires frequent refills")
  else if recommendedDays ≤ 4 then
    ("every_2_days", "Moderate-high demand requires regular refills")
  else if recommendedDays ≤ 7 then
    ("weekly", "Moderate demand allows weekly refills")
  else
    ("bi_weekly", "Low demand allows bi-weekly refills")

/-- SmartRecommendationEngine.get_optimal_refill_frequency
(backend/ai_recommendations.py lines 68-139). -/
def get_optimal_refill_frequency (predicted_demands : List ℚ)
    (capacity current_balance : ℚ) : RefillRecommendation :=
  if predicted_demands.isEmpty || capacity ≤ 0 then
    { recommended_days := 7
      frequency := none
      confidence := "low"
      reason := "Insufficient data for recommendation"
      avg_daily_demand := none
      max_daily_demand := none
      days_until_empty := none }
  else
    { recommended_days := recommended_days_calc predicted_demands current_balance
      frequency := some (frequency_bucket
        (recommended_days_calc predicted_demands current_balance)).1
      confidence := (safety_buffer predicted_demands).2
      reason := (frequency_bucket
        (recommended_days_calc predicted_demands current_balance)).2
      avg_daily_demand := some (pyround (listMean predicted_demands) 2)
      max_daily_demand := some (pyround (listMax predicted_demands) 2)
      days_until_empty := some (pyround
        (days_until_empty_calc predicted_demands current_balance) 2) }

/-- One entry of the atms_data argument of identify_critical_atms.  The
Python code reads days_since_last_refill with dict.get and default 5,
hence the Option type. -/
structure AtmData where
  id : ℕ
  name : String
  location : String
  capacity : ℚ
  current_balance : ℚ
  days_since_last_refill : Option ℚ
  deriving Repr, DecidableEq

/-- One entry of the list returned by identify_critical_atms. -/
structure CriticalAtmInfo where
  atm_id : ℕ
  atm_name : String
  location : String
  priority_score : ℚ
  criticality : String
  current_balance : ℚ
  capacity : ℚ
  balance_percentage : ℚ
  predicted_7day_demand : ℚ
  days_since_last_refill : ℚ
  refill_recommendation : RefillRecommendation
  deriving Repr, DecidableEq

/-- The atm_info record built inside the loop of identify_critical_atms
(backend/ai_recommendations.py lines 158-213) for one ATM with the given
forecast.  When capacity is zero the balance_percentage division would
raise ZeroDivisionError in Python; rational division yields the junk
value 0 there, and every claim below is stated for positive capacities. -/
def build_atm_info (atm : AtmData) (predicted_demands : List ℚ) : CriticalAtmInfo :=
  let nextWeekDemand := (predicted_demands.take 7).sum
  let days := atm.days_since_last_refill.getD 5
  let score := calculate_priority_score nextWeekDemand atm.capacity days
    atm.current_balance
  { atm_id := atm.id
    atm_name := atm.name
    location := atm.location
    priority_score := score
    criticality := ""
    current_balance := atm.current_balance
    capacity := atm.capacity
    balance_percentage := pyround (atm.current_balance / atm.capacity * 100) 1
    predicted_7day_demand := pyround nextWeekDemand 2
    days_since_last_refill := days
    refill_recommendation :=
      get_optimal_refill_frequency predicted_demands atm.capacity
        atm.current_balance }

/-- build_atm_info together with the criticality classification applied
at the given threshold. -/
def build_classified_info (threshold : ℚ) (atm : AtmData)
    (predicted_demands : List ℚ) : CriticalAtmInfo :=
  let info := build_atm_info atm predicted_demands
  { info with criticality := classify_criticality threshold info.priority_score }

/-- Insertion step of a stable descending sort on priority_score: the new
element x goes before the first already-placed element whose score is at
most x's.  Elements passed over therefore have strictly larger scores,
so equal-score elements keep their relative order. -/
def insert_desc (x : CriticalAtmInfo) : List CriticalAtmInfo → List CriticalAtmInfo
  | [] => [x]
  | y :: ys =>
    if y.priority_score ≤ x.priority_score then x :: y :: ys
    else y :: insert_desc x ys

/-- Stable sort by descending priority_score, the semantics of Python's
stable list.sort(key=priority_score, reverse=True) used at
backend/ai_recommendations.py line 220.  Any two stable sorts of the
same list by the same key agree, so insertion sort is a faithful model
of Timsort here. -/
def sort_desc : List CriticalAtmInfo → List CriticalAtmInfo
  | [] => []
  | x :: xs => insert_desc x (sort_desc xs)

/-- The body of the loop of identify_critical_atms for one ATM: skip ATMs
without a (nonempty) forecast, build the classified record, and retain it
only if its score reaches the threshold or it is classified critical. -/
def critical_atm_entry (ml_forecasts : ℕ → Option (List ℚ)) (threshold : ℚ)
    (atm : AtmData) : Option CriticalAtmInfo :=
  match ml_forecasts atm.id with
  | none => none
  | some demands =>
    if demands.isEmpty then none
    else
      let info := build_classified_info threshold atm demands
      if threshold ≤ info.priority_score || info.criticality == "critical" then
        some info
      else none

/-- SmartRecommendationEngine.identify_critical_atms
(backend/ai_recommendations.py lines 141-222). -/
def identify_critical_atms (atms_data : List AtmData)
    (ml_forecasts : ℕ → Option (List ℚ)) (threshold : ℚ) : List CriticalAtmInfo :=
  sort_desc (atms_data.filterMap (critical_atm_entry ml_forecasts threshold))

/-!
## Emergency rerouting
Translated from WhatIfAnalysis.emergency_rerouting in
backend/ai_recommendations.py (lines 376-471).  The haversine distance
of the source is a real-valued trigonometric formula; every property
claimed of the insertion procedure is independent of the concrete
metric, so the embedding takes the pairwise distance function as an
explicit parameter dist (the source instantiates it with the haversine
great-circle distance on (latitude, longitude) pairs).
-/

/-- A stop of the route dict handled by emergency_rerouting: the atm_id,
its location, and the type and priority tags the code attaches to the
inserted emergency stop (empty on ordinary stops). -/
structure EmStop where
  atm_id : ℤ
  location : ℚ × ℚ
  stopType : String
  priority : String
  deriving Repr, DecidableEq

/-- The emergency stop dict appended by emergency_rerouting. -/
def emergency_stop (emergency_atm_id : ℤ) (atm_location : ℚ × ℚ) : EmStop :=
  { atm_id := emergency_atm_id
    location := atm_location
    stopType := "emergency"
    priority := "critical" }

/-- The additional distance evaluated by the loop of emergency_rerouting
for inserting the emergency stop at zero-based position i of the current
route: position 0 is special-cased to the vehicle-to-emergency distance
plus (when the route is nonempty) the leg to the first stop, position n
to the closing leg from the last stop, and interior positions use the
marginal formula d(prev, new) + d(new, next) - d(prev, next). -/
def insertion_cost (dist : ℚ × ℚ → ℚ × ℚ → ℚ)
    (atm_location vehicle_current_location : ℚ × ℚ)
    (original_route : List EmStop) (i : ℕ) : ℚ :=
  match original_route with
  | [] => dist vehicle_current_location atm_location
  | first :: _ =>
    if i = 0 then
      dist vehicle_current_location atm_location +
        dist atm_location first.location
    else if i = original_route.length then
      dist ((original_route.getLast?.getD first).location) atm_location
    else
      let prevLoc := ((original_route.get? (i - 1)).getD first).location
      let nextLoc := ((original_route.get? i).getD first).location
      dist prevLoc atm_location + dist atm_location nextLoc -
        dist prevLoc nextLoc

/-- The argmin loop of emergency_rerouting: scan i = 0, ..., n keeping
the first position that strictly improves the best cost so far. -/
def best_insertion_index (cost : ℕ → ℚ) (n : ℕ) : ℕ :=
  (List.range (n + 1)).foldl (fun best i => if cost i < cost best then i else best) 0

/-- The fields of the dict returned by emergency_rerouting that carry
the routing decision.  recommendation_position is the number
interpolated into the textual recommendation, which is the only
one-based position in the result. -/
structure EmergencyResult where
  emergency_atm_id : ℤ
  distance_to_emergency : ℚ
  additional_time_hours : ℚ
  additional_fuel_cost : ℚ
  insertion_index : ℕ
  original_route_length : ℕ
  modified_route_length : ℕ
  modified_route : List EmStop
  total_additional_distance : ℚ
  recommendation_position : ℕ
  deriving Repr, DecidableEq

/-- WhatIfAnalysis.emergency_rerouting
(backend/ai_recommendations.py lines 376-471). -/
def emergency_rerouting (dist : ℚ × ℚ → ℚ × ℚ → ℚ) (emergency_atm_id : ℤ)
    (atm_location vehicle_current_location : ℚ × ℚ)
    (original_route : List EmStop) : EmergencyResult :=
  let distanceToEmergency := dist vehicle_current_location atm_location
  let cost := insertion_cost dist atm_location vehicle_current_location
    original_route
  let best := best_insertion_index cost original_route.length
  let modified := original_route.take best ++
    [emergency_stop emergency_atm_id atm_location] ++ original_route.drop best
  { emergency_atm_id := emergency_atm_id
    distance_to_emergency := pyround distanceToEmergency 2
    additional_time_hours := pyround (distanceToEmergency / 40) 2
    additional_fuel_cost := pyround (distanceToEmergency * (3/20)) 2
    insertion_index := best
    original_route_length := original_route.length
    modified_route_length := modified.length
    modified_route := modified
    total_additional_distance := pyround (cost best) 2
    recommendation_position := best + 1 }

/-!
## Routing optimizer
Translated from RouteOptimizer in backend/services/route_optimizer.py.
optimize_routes builds an OR-Tools capacitated VRP: the demand of stop i
is int(required_amount_i) (Python truncation), the hard ceiling of
vehicle v is int(capacity_v), and AddDimensionWithVehicleCapacity with
zero slack and zero start cumul constrains the running demand of every
route prefix to stay at most the vehicle ceiling.  The external solver
is modelled by its contract: any assignment of ordered stop lists to
vehicles satisfying that integer prefix-capacity constraint
(solver_feasible below).  _extract_solution is translated directly; the
pairwise haversine distance matrix is abstracted as the parameter dist,
as for emergency_rerouting.
-/

/-- One entry of the atms_to_visit argument of optimize_routes: the
fields _extract_solution reads.  required_amount is read directly in
_extract_solution (the dict.get default 100000 of optimize_routes never
applies to the claims, which supply candidates with required amounts). -/
structure AtmVisit where
  id : ℕ
  name : String
  location : String
  latitude : ℚ
  longitude : ℚ
  required_amount : ℚ
  predicted_demand : ℚ
  deriving Repr, DecidableEq

/-- A vehicle of the fleet argument of optimize_routes. -/
structure Vehicle where
  id : ℕ
  name : String
  capacity : ℚ
  fuel_cost_per_km : Option ℚ
  deriving Repr, DecidableEq

/-- One stop of an extracted route
(backend/services/route_optimizer.py lines 181-193). -/
structure RouteStop where
  sequence : ℕ
  atm_id : ℕ
  atm_name : String
  location : String
  latitude : ℚ
  longitude : ℚ
  required_amount : ℚ
  predicted_demand : ℚ
  deriving Repr, DecidableEq

/-- One route of the result of _extract_solution
(backend/services/route_optimizer.py lines 204-218). -/
structure VehicleRoute where
  vehicle_id : ℕ
  vehicle_name : String
  vehicle_capacity : ℚ
  stops : List RouteStop
  total_stops : ℕ
  total_distance : ℚ
  total_load : ℚ
  capacity_utilization : ℚ
  estimated_cost : ℚ
  estimated_time : ℚ
  deriving Repr, DecidableEq

/-- The fields of the result dict of _extract_solution. -/
structure OptimizeResult where
  routes : List VehicleRoute
  total_routes : ℕ
  total_distance : ℚ
  total_cost : ℚ
  total_atms : ℕ
  deriving Repr, DecidableEq

/-- A solution returned by the OR-Tools solver for optimize_routes: for
each vehicle, in fleet order, the ordered list of ATM stops of its route
(the depot start node excluded, exactly as IndexToNode enumeration with
the node > 0 filter yields it). -/
abbrev SolverSolution : Type := List (List AtmVisit)

/-- The capacity contract the OR-Tools model of optimize_routes imposes
on any returned solution: per vehicle, every prefix of the route's
truncated demands sums to at most the truncated vehicle capacity
(AddDimensionWithVehicleCapacity with zero slack and start cumul zero,
over demands int(required_amount) and capacities int(capacity)). -/
def solver_feasible (vehicles : List Vehicle) (sol : SolverSolution) : Prop :=
  sol.length = vehicles.length ∧
    ∀ p ∈ vehicles.zip sol, ∀ k : ℕ,
      (((p.2.take k).map (fun a => pytrunc a.required_amount)).sum : ℤ) ≤
        pytrunc p.1.capacity

/-- The per-route arc distance accumulated by the while loop of
_extract_solution: consecutive legs depot, stop 1, ..., stop m read from
the integer matrix (int of 1000 times the distance, divided back by
1000), plus the return-to-depot leg read from the float matrix. -/
def route_distance (dist : ℚ × ℚ → ℚ × ℚ → ℚ) (depotLoc : ℚ × ℚ)
    (stops : List AtmVisit) : ℚ :=
  let locs := depotLoc :: stops.map (fun a => (a.latitude, a.longitude))
  let arcs := locs.zip locs.tail
  let scanned := (arcs.map (fun p => ((pytrunc (1000 * dist p.1 p.2) : ℚ) / 1000))).sum
  match stops.getLast? with
  | none => scanned
  | some lastAtm => scanned + dist (lastAtm.latitude, lastAtm.longitude) depotLoc

/-- The route record _extract_solution builds for one vehicle, or none
when the vehicle's route has no stops (such routes are dropped). -/
def extract_route (dist : ℚ × ℚ → ℚ × ℚ → ℚ) (depotLoc : ℚ × ℚ)
    (vehicle : Vehicle) (stops : List AtmVisit) : Option VehicleRoute :=
  if stops.isEmpty then none
  else
    let routeLoad := (stops.map (fun a => a.required_amount)).sum
    let rdist := route_distance dist depotLoc stops
    let routeCost := rdist * (vehicle.fuel_cost_per_km.getD 2)
    some
      { vehicle_id := vehicle.id
        vehicle_name := vehicle.name
        vehicle_capacity := vehicle.capacity
        stops := (List.range stops.length).zip stops |>.map fun p =>
          { sequence := p.1 + 1
            atm_id := p.2.id
            atm_name := p.2.name
            location := p.2.location
            latitude := p.2.latitude
            longitude := p.2.longitude
            required_amount := p.2.required_amount
            predicted_demand := p.2.predicted_demand }
        total_stops := stops.length
        total_distance := pyround rdist 2
        total_load := pyround routeLoad 2
        capacity_utilization := pyround (routeLoad / vehicle.capacity * 100) 2
        estimated_cost := pyround routeCost 2
        estimated_time := pyround (rdist / 40) 2 }

/-- RouteOptimizer._extract_solution
(backend/services/route_optimizer.py lines 154-231), applied to a solver
solution satisfying the capacity contract. -/
def extract_solution (dist : ℚ × ℚ → ℚ × ℚ → ℚ) (depotLoc : ℚ × ℚ)
    (vehicles : List Vehicle) (sol : SolverSolution) : OptimizeResult :=
  let routes := (vehicles.zip sol).filterMap fun p =>
    extract_route dist depotLoc p.1 p.2
  let rawDistances := (vehicles.zip sol).filterMap fun p =>
    if p.2.isEmpty then none else some (route_distance dist depotLoc p.2)
  let rawCosts := (vehicles.zip sol).filterMap fun p =>
    if p.2.isEmpty then none
    else some (route_distance dist depotLoc p.2 * (p.1.fuel_cost_per_km.getD 2))
  { routes := routes
    total_routes := routes.length
    total_distance := pyround rawDistances.sum 2
    total_cost := pyround rawCosts.sum 2
    total_atms := (routes.map (fun r => r.total_stops)).sum }

/-!
## Forecasting resolution cascade
Translated from backend/services/fallback_predictor.py and
PredictionService.predict_demand in
backend/services/prediction_service.py.  The database session, the model
files on disk and the in-memory model registry are modelled as an
explicit environment record.
-/

/-- The value bound to the predictions key of the dict returned by
get_prediction_for_atm.  PredictionService.predict_demand returns a
single float while the fallback tiers return a list of daily values, so
the field's value is one or the other. -/
inductive PredVal where
  | scalar (value : ℚ)
  | series (values : List ℚ)
  deriving Repr, DecidableEq

/-- The environment a forecast resolution for one dispenser reads:
whether a database session was supplied, whether the dispenser row
exists, its transactions as (days-ago, amount) pairs, the system-wide
transactions, today's weekday (0 = Monday), whether a trained model file
exists on disk (FallbackPredictor.has_trained_model), the forecast
series the in-memory model of PredictionService produces for the
dispenser (none when no model is registered or its forecast and predict
calls fail), the value the nested predict_demand call yields for the
nearest modelled dispenser (none when no other dispenser has a model),
and the np.random.random() stream of the conservative tier (each value
in the interval from 0 inclusive to 1 exclusive). -/
structure PredictEnv where
  hasDb : Bool
  atmExists : Bool
  transactions : List (ℚ × ℚ)
  systemTransactions : List (ℚ × ℚ)
  todayWeekday : ℕ
  hasTrainedModelFile : Bool
  trainedModelOutput : Option (List ℚ)
  nearestResult : Option ℚ
  jitter : ℕ → ℚ

/-- PredictionService.predict_demand
(backend/services/prediction_service.py lines 87-138): returns the last
value of the model's forecast clamped at zero, or the 100000 fallback
when no model is registered, no forecast method works, or indexing the
empty forecast raises. -/
def predict_demand (modelOutput : Option (List ℚ)) : ℚ :=
  match modelOutput with
  | none => 100000
  | some [] => 100000
  | some (x :: xs) => max 0 ((x :: xs).getLast (List.cons_ne_nil x xs))

/-- FallbackPredictor._get_system_average
(backend/services/fallback_predictor.py lines 113-129). -/
def system_average (env : PredictEnv) : Option ℚ :=
  if !env.hasDb then none
  else
    let recent := env.systemTransactions.filter (fun t => t.1 ≤ 30)
    if recent.isEmpty then none
    else some (listMean (recent.map Prod.snd) * 50)

/-- FallbackPredictor.get_historical_average
(backend/services/fallback_predictor.py lines 79-111).  The Python
expression system_average or 50000.0 treats both None and 0.0 as falsy,
hence the zero test. -/
def get_historical_average (env : PredictEnv) (days_back : ℚ) : ℚ :=
  if !env.hasDb then 50000
  else
    let recent := env.transactions.filter (fun t => t.1 ≤ days_back)
    if recent.isEmpty then
      match system_average env with
      | none => 50000
      | some v => if v = 0 then 50000 else v
    else listMean (recent.map Prod.snd) * 50

/-- The method selection of the auto branch of FallbackPredictor.predict
(backend/services/fallback_predictor.py lines 142-163).  The trigger for
the historical tier is the count of the dispenser's transactions (all of
them, with no date filter) reaching 30. -/
def choose_auto_method (env : PredictEnv) : String :=
  if env.hasDb then
    if 30 ≤ env.transactions.length then "historical"
    else if env.atmExists then "nearest"
    else "conservative"
  else "conservative"

/-- FallbackPredictor._predict_historical
(backend/services/fallback_predictor.py lines 207-221): the historical
average shaped by a weekday (times 1.1) and weekend (times 0.8)
pattern. -/
def predict_historical (env : PredictEnv) (days : ℕ) : List ℚ :=
  let avg := get_historical_average env 30
  (List.range days).map fun i =>
    if (env.todayWeekday + i) % 7 < 5 then avg * (11/10) else avg * (4/5)

/-- FallbackPredictor._predict_conservative
(backend/services/fallback_predictor.py lines 223-227). -/
def predict_conservative (env : PredictEnv) (days : ℕ) : List ℚ :=
  (List.range days).map fun i => 60000 * (19/20 + (1/10) * env.jitter i)

/-- FallbackPredictor._predict_nearest_neighbor
(backend/services/fallback_predictor.py lines 172-205): on the success
path it returns the bare float that PredictionService.predict_demand
yields for the nearest modelled dispenser, not a list of daily
values. -/
def predict_nearest_neighbor (env : PredictEnv) (days : ℕ) : PredVal :=
  if !env.hasDb then .series (List.replicate days 50000)
  else if !env.atmExists then .series (List.replicate days 50000)
  else
    match env.nearestResult with
    | none => .series (List.replicate days 50000)
    | some v => .scalar v

/-- FallbackPredictor.predict
(backend/services/fallback_predictor.py lines 131-170) with
method = auto. -/
def fallback_predict_auto (env : PredictEnv) (days : ℕ) : PredVal :=
  let method := choose_auto_method env
  if method = "nearest" then predict_nearest_neighbor env days
  else if method = "historical" then .series (predict_historical env days)
  else .series (predict_conservative env days)

/-- The method field of FallbackPredictor.get_prediction_metadata
(backend/services/fallback_predictor.py lines 229-266). -/
def prediction_metadata_method (env : PredictEnv) : String :=
  if env.hasTrainedModelFile then "trained_model"
  else if env.hasDb then
    if 30 ≤ env.transactions.length then "historical_average"
    else if 0 < env.transactions.length then "nearest_neighbor"
    else "conservative_estimate"
  else "conservative_estimate"

/-- The dict returned by get_prediction_for_atm: the predictions value
and the method field of its metadata. -/
structure PredictionOutcome where
  predictions : PredVal
  method : String
  deriving Repr, DecidableEq

/-- get_prediction_for_atm
(backend/services/fallback_predictor.py lines 269-306): with a trained
model file present the predictions value is the single float returned by
PredictionService.predict_demand; otherwise the auto fallback runs. -/
def get_prediction_for_atm (env : PredictEnv) (days : ℕ) : PredictionOutcome :=
  if env.hasTrainedModelFile then
    { predictions := .scalar (predict_demand env.trainedModelOutput)
      method := prediction_metadata_method env }
  else
    { predictions := fallback_predict_auto env days
      method := prediction_metadata_method env }

/-!
## Training job orchestrator
Translated from backend/services/model_trainer.py.  The job table is the
dict self.jobs keyed by atm_id; timestamps are abstract clock readings
threaded as parameters.
-/

/-- A per-model entry of job.results: either the metrics dict returned
by the training function or the error dict built from the caught
exception text. -/
inductive ModelResult where
  | metrics (values : List (String × ℚ))
  | failure (message : String)
  deriving Repr, DecidableEq

/-- The outcome of one model's training call inside _train_worker:
either metrics or the text of the exception it raised. -/
inductive TrainOutcome where
  | ok (values : List (String × ℚ))
  | raised (message : String)
  deriving Repr, DecidableEq

/-- TrainingJob (backend/services/model_trainer.py lines 19-31).
models is normalized at construction: the Python expression
models or two defaults treats both None and the empty list as falsy. -/
structure TrainingJob where
  atm_id : ℕ
  models : List String
  status : String
  progress : ℕ
  message : String
  started_at : Option ℕ
  completed_at : Option ℕ
  error : Option String
  results : List (String × ModelResult)
  deriving Repr, DecidableEq

/-- TrainingJob.__init__: a fresh queued job. -/
def TrainingJob.new (atm_id : ℕ) (models : Option (List String)) : TrainingJob :=
  { atm_id := atm_id
    models :=
      match models with
      | none => ["arima", "lstm"]
      | some [] => ["arima", "lstm"]
      | some l => l
    status := "queued"
    progress := 0
    message := "Waiting to start..."
    started_at := none
    completed_at := none
    error := none
    results := [] }

/-- The job table of ModelTrainer: at most one job per dispenser id by
construction, exactly as a dict keyed by atm_id. -/
abbrev JobTable : Type := ℕ → Option TrainingJob

/-- ModelTrainer.start_training
(backend/services/model_trainer.py lines 73-98): under the table lock,
return the existing job unchanged when one is queued or running for the
dispenser, otherwise install a fresh queued job (the worker thread spawn
is the separate transition train_worker below). -/
def start_training (jobs : JobTable) (atm_id : ℕ)
    (models : Option (List String)) : TrainingJob × JobTable :=
  match jobs atm_id with
  | some j =>
    if j.status = "queued" ∨ j.status = "running" then (j, jobs)
    else
      let job := TrainingJob.new atm_id models
      (job, Function.update jobs atm_id (some job))
  | none =>
    let job := TrainingJob.new atm_id models
    (job, Function.update jobs atm_id (some job))

/-- The per-model results accumulated by _train_worker
(backend/services/model_trainer.py lines 151-193): an arima entry when
arima is among the requested models, then an lstm entry when lstm is;
other names are never attempted. -/
def worker_results (models : List String) (outcome : String → TrainOutcome) :
    List (String × ModelResult) :=
  (if "arima" ∈ models then
    [("arima",
      match outcome "arima" with
      | .ok m => ModelResult.metrics m
      | .raised e => ModelResult.failure e)]
  else []) ++
  (if "lstm" ∈ models then
    [("lstm",
      match outcome "lstm" with
      | .ok m => ModelResult.metrics m
      | .raised e => ModelResult.failure e)]
  else [])

/-- The successful_models filter of _train_worker
(backend/services/model_trainer.py lines 196-199). -/
def successful_models (results : List (String × ModelResult)) : List String :=
  (results.filter fun p =>
    match p.2 with
    | .metrics _ => true
    | .failure _ => false).map Prod.fst

/-- The fixed message of the exception _train_worker raises when no
requested model trained successfully. -/
def all_failed_message : String :=
  "All model training attempts failed. Check logs for details."

/-- ModelTrainer._train_worker
(backend/services/model_trainer.py lines 104-264) as a transition on the
job record.  data_error carries the text of an exception raised while
loading or validating the CSV training data (file missing, fewer than 7
rows); outcome gives each model's training result; persist_error carries
the text of an exception raised by the post-training profile update and
commit.  t_start and t_end are the clock readings taken for started_at
and completed_at.  On the all-models-failed path the raised aggregate
exception reaches the same handler, so job.results keeps its initial
empty dict; on a persist failure the handler overwrites the completed
status but job.results keeps the assigned per-model results. -/
def train_worker (job : TrainingJob) (data_error : Option String)
    (outcome : String → TrainOutcome) (persist_error : Option String)
    (t_start t_end : ℕ) : TrainingJob :=
  let running := { job with status := "running", started_at := some t_start }
  match data_error with
  | some e =>
    { running with
        status := "failed"
        error := some e
        message := "Training failed: " ++ e
        completed_at := some t_end
        progress := 0 }
  | none =>
    let results := worker_results running.models outcome
    if (successful_models results).isEmpty then
      { running with
          status := "failed"
          error := some all_failed_message
          message := "Training failed: " ++ all_failed_message
          completed_at := some t_end
          progress := 0 }
    else
      let completed :=
        { running with
            status := "completed"
            progress := 100
            message := "Training completed! Models saved."
            completed_at := some t_end
            results := results }
      match persist_error with
      | none => completed
      | some e =>
        { completed with
            status := "failed"
            error := some e
            message := "Training failed: " ++ e
            completed_at := some t_end
            progress := 0 }

/-- Truncation toward zero is the identity on integers. -/
theorem pytrunc_intCast (z : ℤ) : pytrunc (z : ℚ) = z := by
  simp [pytrunc]

/-- Does the predictions value hold a series of exactly n values? -/
def seriesOfLength (p : PredVal) (n : ℕ) : Bool :=
  match p with
  | .series l => l.length == n
  | .scalar _ => false

/-!
## Claim theorems
-/

/-- C10: for every input with capacity at most zero, and any predicted
demand, days since refill and balance, calculate_priority_score returns
exactly 0: the guard makes the divisions by capacity unreachable, so the
scoring operation is total on degenerate dispenser data. -/
theorem priority_score_zero_capacity (d c days b : ℚ) (hc : c ≤ 0) :
    calculate_priority_score d c days b = 0 := by
  simp [calculate_priority_score, hc]

theorem priority_score_zero_capacity_witness :
    (0 : ℚ) ≤ 0 ∧ calculate_priority_score 300000 0 5 45000 = 0 :=
  ⟨le_refl 0, priority_score_zero_capacity 300000 0 5 45000 (le_refl 0)⟩

/-- C3: for positive capacity the priority score is
(predicted_demand / capacity) times min(days_since_last_refill / 7, 2)
times the urgency step factor, rounded at four decimal digits, and on
the spec's example (capacity 200000, balance 45000, 7-day demand 300000,
5 days since refill) it evaluates to 2.1429, approximately 2.14, which
classifies as high at the default threshold 1.5. -/
theorem priority_score_formula :
    (∀ d c days b : ℚ, 0 < c →
      calculate_priority_score d c days b =
        pyround (d / c * min (days / 7) 2 * urgency_factor (b / c)) 4) ∧
    calculate_priority_score 300000 200000 5 45000 = 21429/10000 ∧
    |(21429/10000 : ℚ) - 214/100| < 1/100 ∧
    classify_criticality (3/2) (21429/10000) = "high" := by
  refine ⟨?_, ?_, by norm_num [abs_lt], ?_⟩
  · intro d c days b hc
    simp [calculate_priority_score, not_le.mpr hc]
  · norm_num [calculate_priority_score, urgency_factor, pyround, roundHalfEven,
      min_def]
  · norm_num [classify_criticality]

theorem priority_score_formula_witness :
    (0 : ℚ) < 200000 ∧
      calculate_priority_score 300000 200000 5 45000 =
        pyround (300000 / 200000 * min (5 / 7) 2 *
          urgency_factor (45000 / 200000)) 4 :=
  ⟨by norm_num, priority_score_formula.1 300000 200000 5 45000 (by norm_num)⟩

/-- C8 counterexample: on the series [10, 10] (variation zero, so buffer
factor 0.8 as claimed), capacity 100 and balance 55, days-until-empty is
5.5 and the claimed value clamp(5.5 times 0.8, 1, 14) is 4.4, but the
code truncates with int() before clamping and recommends 4 days. -/
theorem refill_frequency_counterexample :
    (get_optimal_refill_frequency [10, 10] 100 55).recommended_days = 4 ∧
    max (1 : ℚ) (min (55 / 10 * (4/5)) 14) = 22/5 ∧ ((4 : ℚ) ≠ 22/5) := by
  refine ⟨?_, by norm_num, by norm_num⟩
  norm_num [get_optimal_refill_frequency, recommended_days_calc,
    days_until_empty_calc, safety_buffer, cv_lt, listMean, listPopVar, pytrunc]

/-- C8 (amended): for a nonempty demand series with positive mean and
positive capacity, the buffer factor and confidence follow the
coefficient-of-variation brackets (stated via the squared equivalent
variance < c^2 mean^2 of std/mean < c), the recommended interval is
int(days_until_empty times buffer) clamped to 1..14, and the frequency
bucket is exactly one of the four categories, determined by the stated
cutoffs. -/
theorem refill_frequency_spec (ds : List ℚ) (cap bal : ℚ)
    (hne : 0 < ds.length) (hm : 0 < listMean ds) (hcap : 0 < cap) :
    (get_optimal_refill_frequency ds cap bal).confidence =
      (if listPopVar ds < (1/5)^2 * (listMean ds)^2 then "high"
        else if listPopVar ds < (2/5)^2 * (listMean ds)^2 then "medium"
        else "low") ∧
    (get_optimal_refill_frequency ds cap bal).recommended_days =
      max 1 (min (pytrunc (bal / listMean ds *
        (if listPopVar ds < (1/5)^2 * (listMean ds)^2 then 4/5
          else if listPopVar ds < (2/5)^2 * (listMean ds)^2 then 3/5
          else 2/5))) 14) ∧
    (1 ≤ (get_optimal_refill_frequency ds cap bal).recommended_days ∧
      (get_optimal_refill_frequency ds cap bal).recommended_days ≤ 14) ∧
    (get_optimal_refill_frequency ds cap bal).frequency =
      some (if (get_optimal_refill_frequency ds cap bal).recommended_days ≤ 2
        then "daily"
        else if (get_optimal_refill_frequency ds cap bal).recommended_days ≤ 4
        then "every_2_days"
        else if (get_optimal_refill_frequency ds cap bal).recommended_days ≤ 7
        then "weekly" else "bi_weekly") ∧
    ((get_optimal_refill_frequency ds cap bal).frequency = some "daily" ∨
      (get_optimal_refill_frequency ds cap bal).frequency = some "every_2_days" ∨
      (get_optimal_refill_frequency ds cap bal).frequency = some "weekly" ∨
      (get_optimal_refill_frequency ds cap bal).frequency = some "bi_weekly") := by
  have hE : ds.isEmpty = false := by cases ds <;> simp_all
  have hcap' : ¬ cap ≤ 0 := not_le.mpr hcap
  have hc1 : cv_lt ds (1/5) =
      decide (listPopVar ds < (1/5)^2 * (listMean ds)^2) := by
    simp only [cv_lt]
    rw [if_pos hm]
  have hc2 : cv_lt ds (2/5) =
      decide (listPopVar ds < (2/5)^2 * (listMean ds)^2) := by
    simp only [cv_lt]
    rw [if_pos hm]
  have hbuf : safety_buffer ds =
      (if listPopVar ds < (1/5)^2 * (listMean ds)^2 then ((4 : ℚ)/5, "high")
        else if listPopVar ds < (2/5)^2 * (listMean ds)^2 then ((3 : ℚ)/5, "medium")
        else ((2 : ℚ)/5, "low")) := by
    simp only [safety_buffer, hc1, hc2, decide_eq_true_eq]
  have hgo : get_optimal_refill_frequency ds cap bal =
      { recommended_days := recommended_days_calc ds bal
        frequency := some (frequency_bucket (recommended_days_calc ds bal)).1
        confidence := (safety_buffer ds).2
        reason := (frequency_bucket (recommended_days_calc ds bal)).2
        avg_daily_demand := some (pyround (listMean ds) 2)
        max_daily_demand := some (pyround (listMax ds) 2)
        days_until_empty := some (pyround (days_until_empty_calc ds bal) 2) } := by
    simp only [get_optimal_refill_frequency, hE, Bool.false_or]
    rw [if_neg]
    simp only [decide_eq_true_eq]
    exact hcap'
  have hduec : days_until_empty_calc ds bal = bal / listMean ds := by
    simp only [days_until_empty_calc]
    rw [if_pos hm]
  have hrd : recommended_days_calc ds bal =
      max 1 (min (pytrunc (bal / listMean ds *
        (if listPopVar ds < (1/5)^2 * (listMean ds)^2 then (4 : ℚ)/5
          else if listPopVar ds < (2/5)^2 * (listMean ds)^2 then (3 : ℚ)/5
          else (2 : ℚ)/5))) 14) := by
    simp only [recommended_days_calc, hduec, hbuf,
      apply_ite (Prod.fst : ℚ × String → ℚ)]
  have hfreq : ∀ n : ℤ, (frequency_bucket n).1 =
      if n ≤ 2 then "daily" else if n ≤ 4 then "every_2_days"
      else if n ≤ 7 then "weekly" else "bi_weekly" := by
    intro n
    unfold frequency_bucket
    split_ifs <;> rfl
  refine ⟨?_, ?_, ?_, ?_, ?_⟩
  · rw [hgo]
    show (safety_buffer ds).2 = _
    simp only [hbuf, apply_ite (Prod.snd : ℚ × String → String)]
  · rw [hgo]
    exact hrd
  · rw [hgo]
    refine ⟨le_max_left 1 _, ?_⟩
    exact max_le (by norm_num) (le_trans (min_le_right _ 14) (by norm_num))
  · rw [hgo]
    show some (frequency_bucket (recommended_days_calc ds bal)).1 = _
    rw [hfreq]
  · rw [hgo]
    show some (frequency_bucket (recommended_days_calc ds bal)).1 = _ ∨ _
    rw [hfreq]
    split_ifs <;> simp

theorem refill_frequency_spec_witness :
    0 < ([10, 10] : List ℚ).length ∧ (0 : ℚ) < listMean [10, 10] ∧
    (0 : ℚ) < 100 ∧
    (get_optimal_refill_frequency [10, 10] 100 55).confidence =
      (if listPopVar [10, 10] < (1/5)^2 * (listMean [10, 10])^2 then "high"
        else if listPopVar [10, 10] < (2/5)^2 * (listMean [10, 10])^2
        then "medium" else "low") :=
  ⟨by simp, by norm_num [listMean], by norm_num,
    (refill_frequency_spec [10, 10] 100 55 (by simp)
      (by norm_num [listMean]) (by norm_num)).1⟩

theorem mem_insert_desc {x y : CriticalAtmInfo} :
    ∀ {l : List CriticalAtmInfo}, y ∈ insert_desc x l ↔ y = x ∨ y ∈ l
  | [] => by simp [insert_desc]
  | z :: zs => by
    by_cases h : z.priority_score ≤ x.priority_score
    · rw [insert_desc, if_pos h]
      simp
    · rw [insert_desc, if_neg h]
      simp only [List.mem_cons, mem_insert_desc (l := zs)]
      tauto

theorem mem_sort_desc {y : CriticalAtmInfo} :
    ∀ {l : List CriticalAtmInfo}, y ∈ sort_desc l ↔ y ∈ l
  | [] => Iff.rfl
  | z :: zs => by
    rw [sort_desc, mem_insert_desc]
    simp only [List.mem_cons, mem_sort_desc (l := zs)]

theorem pairwise_insert_desc {x : CriticalAtmInfo} {l : List CriticalAtmInfo}
    (h : l.Pairwise (fun a b => b.priority_score ≤ a.priority_score)) :
    (insert_desc x l).Pairwise
      (fun a b => b.priority_score ≤ a.priority_score) := by
  induction l with
  | nil => simp [insert_desc]
  | cons z zs ih =>
    rcases List.pairwise_cons.mp h with ⟨hz, hzs⟩
    by_cases hc : z.priority_score ≤ x.priority_score
    · rw [insert_desc, if_pos hc]
      refine List.pairwise_cons.mpr ⟨?_, h⟩
      intro b hb
      rcases List.mem_cons.mp hb with rfl | hb'
      · exact hc
      · exact le_trans (hz b hb') hc
    · rw [insert_desc, if_neg hc]
      refine List.pairwise_cons.mpr ⟨?_, ih hzs⟩
      intro b hb
      rcases mem_insert_desc.mp hb with rfl | hb'
      · exact le_of_lt (not_le.mp hc)
      · exact hz b hb'

theorem pairwise_sort_desc :
    ∀ l : List CriticalAtmInfo,
      (sort_desc l).Pairwise (fun a b => b.priority_score ≤ a.priority_score)
  | [] => List.Pairwise.nil
  | z :: zs => pairwise_insert_desc (pairwise_sort_desc zs)

theorem filter_score_insert_desc (q : ℚ) (x : CriticalAtmInfo) :
    ∀ l : List CriticalAtmInfo,
      (insert_desc x l).filter (fun z => decide (z.priority_score = q)) =
        if x.priority_score = q then
          x :: l.filter (fun z => decide (z.priority_score = q))
        else l.filter (fun z => decide (z.priority_score = q))
  | [] => by
    by_cases hx : x.priority_score = q <;> simp [insert_desc, hx]
  | z :: zs => by
    by_cases hc : z.priority_score ≤ x.priority_score
    · rw [insert_desc, if_pos hc]
      by_cases hx : x.priority_score = q <;>
        simp [List.filter_cons, hx]
    · rw [insert_desc, if_neg hc]
      have hlt : x.priority_score < z.priority_score := not_le.mp hc
      by_cases hx : x.priority_score = q
      · have hz : ¬ z.priority_score = q := by
          rw [← hx]
          exact ne_of_gt hlt
        simp [List.filter_cons, hz, hx, filter_score_insert_desc q x zs]
      · simp [List.filter_cons, hx, filter_score_insert_desc q x zs]

theorem filter_score_sort_desc (q : ℚ) :
    ∀ l : List CriticalAtmInfo,
      (sort_desc l).filter (fun z => decide (z.priority_score = q)) =
        l.filter (fun z => decide (z.priority_score = q))
  | [] => rfl
  | z :: zs => by
    rw [sort_desc, filter_score_insert_desc]
    by_cases hz : z.priority_score = q <;>
      simp [List.filter_cons, hz, filter_score_sort_desc q zs]

theorem critical_atm_entry_eq_some {fc : ℕ → Option (List ℚ)} {thr : ℚ}
    {a : AtmData} {x : CriticalAtmInfo} :
    critical_atm_entry fc thr a = some x ↔
      ∃ ds, fc a.id = some ds ∧ ds ≠ [] ∧
        x = build_classified_info thr a ds ∧
        (thr ≤ x.priority_score ∨ x.criticality = "critical") := by
  unfold critical_atm_entry
  cases hfc : fc a.id with
  | none => simp
  | some ds =>
    by_cases hds : ds.isEmpty
    · have : ds = [] := by
        cases ds
        · rfl
        · simp at hds
      subst this
      simp
    · have hne : ds ≠ [] := by
        cases ds
        · simp at hds
        · simp
      simp only [hds, Bool.false_eq_true, if_false, ite_false]
      by_cases hkeep : thr ≤ (build_classified_info thr a ds).priority_score ∨
          (build_classified_info thr a ds).criticality = "critical"
      · rw [if_pos]
        · constructor
          · intro h
            refine ⟨ds, rfl, hne, ?_, ?_⟩
            · exact (Option.some_injective _ h).symm
            · rw [Option.some_injective _ h] at hkeep
              exact hkeep
          · rintro ⟨ds', hds', _, hx, _⟩
            obtain rfl : ds = ds' := Option.some_injective _ hds'
            rw [hx]
        · rcases hkeep with h | h
          · simp [h]
          · simp [h]
      · rw [if_neg]
        · constructor
          · intro h
            exact absurd h (by simp)
          · rintro ⟨ds', hds', _, hx, hk⟩
            obtain rfl : ds = ds' := Option.some_injective _ hds'
            rw [← hx] at hkeep
            exact absurd hk hkeep
        · push_neg at hkeep
          simp [hkeep.1, hkeep.2]

/-- C6 (amended): the output of identify_critical_atms is sorted by
descending priority score; equal-score entries appear in input order
(Python's stable sort), expressed by the per-score filter being
preserved; membership is exactly the candidates with a nonempty forecast
whose score reaches the threshold or whose classification is critical;
and each retained entry is classified by the stated cutoffs. -/
theorem identify_critical_atms_spec (atms : List AtmData)
    (fc : ℕ → Option (List ℚ)) (thr : ℚ)
    (hcap : ∀ a ∈ atms, 0 < a.capacity) :
    ((identify_critical_atms atms fc thr).Pairwise
      (fun a b => b.priority_score ≤ a.priority_score)) ∧
    (∀ q : ℚ, (identify_critical_atms atms fc thr).filter
        (fun z => decide (z.priority_score = q)) =
      (atms.filterMap (critical_atm_entry fc thr)).filter
        (fun z => decide (z.priority_score = q))) ∧
    (∀ x, x ∈ identify_critical_atms atms fc thr ↔
      ∃ a ∈ atms, ∃ ds, fc a.id = some ds ∧ ds ≠ [] ∧
        x = build_classified_info thr a ds ∧
        (thr ≤ x.priority_score ∨ x.criticality = "critical")) ∧
    (∀ x ∈ identify_critical_atms atms fc thr,
      x.criticality = classify_criticality thr x.priority_score) := by
  refine ⟨pairwise_sort_desc _, fun q => filter_score_sort_desc q _, ?_, ?_⟩
  · intro x
    rw [identify_critical_atms, mem_sort_desc, List.mem_filterMap]
    constructor
    · rintro ⟨a, ha, hx⟩
      exact ⟨a, ha, critical_atm_entry_eq_some.mp hx⟩
    · rintro ⟨a, ha, hx⟩
      exact ⟨a, ha, critical_atm_entry_eq_some.mpr hx⟩
  · intro x hx
    rw [identify_critical_atms, mem_sort_desc, List.mem_filterMap] at hx
    rcases hx with ⟨a, _, hentry⟩
    rcases critical_atm_entry_eq_some.mp hentry with ⟨ds, _, _, hxeq, _⟩
    rw [hxeq]
    rfl

/-- Fixture: a week of identical 70000 forecasts. -/
def c6list : List ℚ := [70000, 70000, 70000, 70000, 70000, 70000, 70000]

/-- Fixture: two dispensers that differ only in their id. -/
def c6atm (i : ℕ) : AtmData :=
  { id := i
    name := "A"
    location := "L"
    capacity := 100000
    current_balance := 10000
    days_since_last_refill := none }

/-- Fixture: forecasts present exactly for dispensers 5 and 3. -/
def c6fc : ℕ → Option (List ℚ) :=
  fun i => if i = 5 ∨ i = 3 then some c6list else none

theorem c6_score (i : ℕ) :
    (build_classified_info (3/2) (c6atm i) c6list).priority_score = 21/2 := by
  norm_num [build_classified_info, build_atm_info, calculate_priority_score,
    urgency_factor, pyround, roundHalfEven, min_def, c6atm, c6list]

theorem c6_id (i : ℕ) :
    (build_classified_info (3/2) (c6atm i) c6list).atm_id = i := rfl

theorem c6_crit (i : ℕ) :
    (build_classified_info (3/2) (c6atm i) c6list).criticality = "critical" := by
  have h : (build_classified_info (3/2) (c6atm i) c6list).criticality =
      classify_criticality (3/2)
        (build_classified_info (3/2) (c6atm i) c6list).priority_score := rfl
  rw [h, c6_score, classify_criticality, if_pos (by norm_num)]

theorem c6_entry (i : ℕ) (hi : i = 5 ∨ i = 3) :
    critical_atm_entry c6fc (3/2) (c6atm i) =
      some (build_classified_info (3/2) (c6atm i) c6list) := by
  apply critical_atm_entry_eq_some.mpr
  refine ⟨c6list, ?_, by simp [c6list], rfl, Or.inr (c6_crit i)⟩
  simp [c6fc, c6atm, hi]

/-- C6 counterexample: two equal-score dispensers supplied in input order
id 5 then id 3 come out in that same input order (Python's sort is
stable), not in ascending id order as the claimed id tie-break would
require, so the claimed ordering predicate fails on the output. -/
theorem identify_critical_tiebreak_counterexample :
    ((identify_critical_atms [c6atm 5, c6atm 3] c6fc (3/2)).map
      (fun i => i.atm_id)) = [5, 3] ∧
    ¬ List.Chain' (fun a b => b.priority_score < a.priority_score ∨
        (b.priority_score = a.priority_score ∧ a.atm_id < b.atm_id))
      (identify_critical_atms [c6atm 5, c6atm 3] c6fc (3/2)) := by
  have hout : identify_critical_atms [c6atm 5, c6atm 3] c6fc (3/2) =
      [build_classified_info (3/2) (c6atm 5) c6list,
        build_classified_info (3/2) (c6atm 3) c6list] := by
    rw [identify_critical_atms]
    rw [List.filterMap_cons, c6_entry 5 (Or.inl rfl)]
    rw [List.filterMap_cons, c6_entry 3 (Or.inr rfl)]
    rw [List.filterMap_nil]
    rw [sort_desc, sort_desc, sort_desc, insert_desc, insert_desc]
    rw [if_pos]
    rw [c6_score, c6_score]
  rw [hout]
  constructor
  · simp [c6_id]
  · simp only [List.chain'_cons, List.chain'_singleton, and_true, not_or,
      c6_score, c6_id]
    push_neg
    refine ⟨le_refl _, fun _ => by norm_num⟩

theorem identify_critical_atms_spec_witness :
    (0 : ℚ) < (c6atm 5).capacity ∧
    (build_classified_info (3/2) (c6atm 5) c6list).criticality =
      classify_criticality (3/2)
        (build_classified_info (3/2) (c6atm 5) c6list).priority_score := by
  have hcap : ∀ a ∈ [c6atm 5, c6atm 3], (0 : ℚ) < a.capacity := by
    intro a ha
    fin_cases ha <;> norm_num [c6atm]
  refine ⟨by norm_num [c6atm], ?_⟩
  apply (identify_critical_atms_spec [c6atm 5, c6atm 3] c6fc (3/2) hcap).2.2.2
  apply ((identify_critical_atms_spec [c6atm 5, c6atm 3] c6fc (3/2)
    hcap).2.2.1 _).mpr
  exact ⟨c6atm 5, by simp, c6list, by simp [c6fc, c6atm], by simp [c6list],
    rfl, Or.inr (c6_crit 5)⟩

theorem foldl_argmin_spec (cost : ℕ → ℚ) :
    ∀ (l : List ℕ) (b : ℕ),
      (l.foldl (fun best i => if cost i < cost best then i else best) b = b ∨
        l.foldl (fun best i => if cost i < cost best then i else best) b ∈ l) ∧
      cost (l.foldl (fun best i => if cost i < cost best then i else best) b) ≤
        cost b ∧
      ∀ i ∈ l,
        cost (l.foldl (fun best i => if cost i < cost best then i else best) b) ≤
          cost i
  | [], b => ⟨Or.inl rfl, le_refl _, by simp⟩
  | i :: is, b => by
    rw [List.foldl_cons]
    have ih := foldl_argmin_spec cost is (if cost i < cost b then i else b)
    have hb' : cost (if cost i < cost b then i else b) ≤ cost b := by
      by_cases h : cost i < cost b
      · rw [if_pos h]
        exact le_of_lt h
      · rw [if_neg h]
    have hbi : cost (if cost i < cost b then i else b) ≤ cost i := by
      by_cases h : cost i < cost b
      · rw [if_pos h]
      · rw [if_neg h]
        exact le_of_not_lt h
    refine ⟨?_, le_trans ih.2.1 hb', ?_⟩
    · rcases ih.1 with he | hmem
      · rw [he]
        by_cases h : cost i < cost b
        · rw [if_pos h]
          exact Or.inr (List.mem_cons_self i is)
        · rw [if_neg h]
          exact Or.inl rfl
      · exact Or.inr (List.mem_cons_of_mem i hmem)
    · intro j hj
      rcases List.mem_cons.mp hj with rfl | hj'
      · exact le_trans ih.2.1 hbi
      · exact ih.2.2 j hj'

theorem best_insertion_index_le (cost : ℕ → ℚ) (n : ℕ) :
    best_insertion_index cost n ≤ n := by
  rcases (foldl_argmin_spec cost (List.range (n + 1)) 0).1 with he | hmem
  · rw [best_insertion_index, he]
    exact Nat.zero_le n
  · exact Nat.lt_succ_iff.mp (List.mem_range.mp hmem)

theorem best_insertion_index_min (cost : ℕ → ℚ) (n : ℕ) :
    ∀ i ≤ n, cost (best_insertion_index cost n) ≤ cost i := by
  intro i hi
  exact (foldl_argmin_spec cost (List.range (n + 1)) 0).2.2 i
    (List.mem_range.mpr (Nat.lt_succ_of_le hi))

/-- C5 (amended): emergency_rerouting inserts the emergency stop at a
zero-based position at most n, the modified route is the original with
exactly that one stop inserted there (length n + 1), the chosen position
has minimal insertion cost among all n + 1 candidate positions, and the
one-based position appears only as the number interpolated into the
textual recommendation (insertion_index plus one). -/
theorem emergency_rerouting_spec (dist : ℚ × ℚ → ℚ × ℚ → ℚ) (eid : ℤ)
    (aloc vloc : ℚ × ℚ) (route : List EmStop) :
    (emergency_rerouting dist eid aloc vloc route).insertion_index ≤
      route.length ∧
    (emergency_rerouting dist eid aloc vloc route).modified_route =
      route.take (emergency_rerouting dist eid aloc vloc route).insertion_index ++
        [emergency_stop eid aloc] ++
        route.drop (emergency_rerouting dist eid aloc vloc route).insertion_index ∧
    (emergency_rerouting dist eid aloc vloc route).modified_route.length =
      route.length + 1 ∧
    (emergency_rerouting dist eid aloc vloc route).recommendation_position =
      (emergency_rerouting dist eid aloc vloc route).insertion_index + 1 ∧
    ∀ i ≤ route.length,
      insertion_cost dist aloc vloc route
        (emergency_rerouting dist eid aloc vloc route).insertion_index ≤
        insertion_cost dist aloc vloc route i := by
  have hle := best_insertion_index_le
    (insertion_cost dist aloc vloc route) route.length
  refine ⟨hle, rfl, ?_, rfl, ?_⟩
  · show (route.take _ ++ [emergency_stop eid aloc] ++ route.drop _).length =
      route.length + 1
    simp only [List.length_append, List.length_take, List.length_drop,
      List.length_singleton]
    omega
  · intro i hi
    exact best_insertion_index_min _ _ i hi

/-- Fixture: a planned route of four collinear stops. -/
def c5route : List EmStop :=
  [{ atm_id := 1, location := (0, 0), stopType := "", priority := "" },
    { atm_id := 2, location := (0, 2), stopType := "", priority := "" },
    { atm_id := 3, location := (0, 4), stopType := "", priority := "" },
    { atm_id := 4, location := (0, 6), stopType := "", priority := "" }]

/-- A concrete rational stand-in metric (taxicab distance) for the
haversine parameter; the properties settled here do not depend on the
metric. -/
def taxi_dist (p q : ℚ × ℚ) : ℚ := |p.1 - q.1| + |p.2 - q.2|

/-- C5 counterexample: on an empty planned route the only insertion
position is before the first stop; the returned insertion_index is the
zero-based 0 while the emergency stop occupies one-based position 1 of
the modified route (the one-based number appears only in the textual
recommendation), so the returned index is not one-based as claimed. -/
theorem emergency_insertion_index_counterexample :
    (emergency_rerouting taxi_dist 9 (1, 1) (0, 0) []).insertion_index = 0 ∧
    (emergency_rerouting taxi_dist 9 (1, 1) (0, 0) []).modified_route =
      [emergency_stop 9 (1, 1)] ∧
    (emergency_rerouting taxi_dist 9 (1, 1) (0, 0) []).recommendation_position
      = 1 := by
  have hb : ∀ cost : ℕ → ℚ, best_insertion_index cost 0 = 0 := by
    intro cost
    simp [best_insertion_index, List.range_succ]
  refine ⟨hb _, ?_, ?_⟩
  · show (List.take (best_insertion_index _ 0) [] ++ [emergency_stop 9 (1, 1)]
      ++ List.drop (best_insertion_index _ 0) []) = _
    rw [hb]
    simp
  · show best_insertion_index _ 0 + 1 = 1
    rw [hb]

theorem emergency_rerouting_spec_witness :
    insertion_cost taxi_dist (0, 3) (0, 0) c5route
      (emergency_rerouting taxi_dist 9 (0, 3) (0, 0) c5route).insertion_index ≤
    insertion_cost taxi_dist (0, 3) (0, 0) c5route 0 :=
  (emergency_rerouting_spec taxi_dist 9 (0, 3) (0, 0) c5route).2.2.2.2 0
    (Nat.zero_le _)

theorem extract_route_fields {dist : ℚ × ℚ → ℚ × ℚ → ℚ} {depotLoc : ℚ × ℚ}
    {vehicle : Vehicle} {stops : List AtmVisit} {r : VehicleRoute}
    (h : extract_route dist depotLoc vehicle stops = some r) :
    r.vehicle_capacity = vehicle.capacity ∧
    r.stops.map (fun s => s.required_amount) =
      stops.map (fun a => a.required_amount) ∧
    r.total_load = pyround ((stops.map (fun a => a.required_amount)).sum) 2 := by
  by_cases hE : stops.isEmpty
  · rw [extract_route, if_pos hE] at h
    exact absurd h (by simp)
  · rw [extract_route, if_neg hE] at h
    have hr := (Option.some_injective _ h).symm
    subst hr
    refine ⟨rfl, ?_, rfl⟩
    have hsnd : ((List.range stops.length).zip stops).map Prod.snd = stops :=
      List.map_snd_zip _ _ (by simp)
    conv_rhs => rw [← hsnd, List.map_map]
    rw [List.map_map]
    rfl

theorem int_list_take_sum {L : List ℚ} (h : ∀ x ∈ L, ∃ z : ℤ, x = (z : ℚ)) :
    ∀ k : ℕ, (L.take k).sum = (((L.take k).map pytrunc).sum : ℚ) := by
  induction L with
  | nil => intro k; simp
  | cons x xs ih =>
    intro k
    cases k with
    | zero => simp
    | succ k =>
      rcases h x (List.mem_cons_self x xs) with ⟨z, hz⟩
      have ihx := ih (fun y hy => h y (List.mem_cons_of_mem x hy)) k
      simp only [List.take_succ_cons, List.sum_cons, List.map_cons, ihx, hz,
        pytrunc_intCast]
      push_cast
      ring

/-- C1 (amended): for every solution honoring the solver's capacity
contract, every extracted route keeps the running sum of the
int-truncated stop amounts within the int-truncated vehicle capacity at
every prefix; when all required amounts and the capacities are whole
numbers this yields the claim as stated: every prefix of the raw stop
amounts stays within the vehicle capacity and the reported total_load
never exceeds vehicle_capacity. -/
theorem optimize_routes_capacity (dist : ℚ × ℚ → ℚ × ℚ → ℚ)
    (depotLoc : ℚ × ℚ) (vehicles : List Vehicle) (sol : SolverSolution)
    (hfeas : solver_feasible vehicles sol) :
    (∀ r ∈ (extract_solution dist depotLoc vehicles sol).routes, ∀ k : ℕ,
      (((r.stops.take k).map (fun s => pytrunc s.required_amount)).sum : ℤ) ≤
        pytrunc r.vehicle_capacity) ∧
    ((∀ p ∈ vehicles.zip sol, (∃ z : ℤ, p.1.capacity = (z : ℚ)) ∧
        ∀ a ∈ p.2, ∃ z : ℤ, a.required_amount = (z : ℚ)) →
      ∀ r ∈ (extract_solution dist depotLoc vehicles sol).routes,
        (∀ k : ℕ, ((r.stops.take k).map (fun s => s.required_amount)).sum ≤
          r.vehicle_capacity) ∧
        r.total_load ≤ r.vehicle_capacity) := by
  have key : ∀ r ∈ (extract_solution dist depotLoc vehicles sol).routes,
      ∃ p ∈ vehicles.zip sol,
        r.vehicle_capacity = p.1.capacity ∧
        r.stops.map (fun s => s.required_amount) =
          p.2.map (fun a => a.required_amount) ∧
        r.total_load = pyround ((p.2.map (fun a => a.required_amount)).sum) 2 := by
    intro r hr
    rcases List.mem_filterMap.mp hr with ⟨p, hp, hpr⟩
    rcases extract_route_fields hpr with ⟨h1, h2, h3⟩
    exact ⟨p, hp, h1, h2, h3⟩
  have prefix_sums_trunc : ∀ r ∈ (extract_solution dist depotLoc vehicles sol).routes,
      ∀ p ∈ vehicles.zip sol,
        r.stops.map (fun s => s.required_amount) =
          p.2.map (fun a => a.required_amount) →
        ∀ k : ℕ,
          ((r.stops.take k).map (fun s => pytrunc s.required_amount)).sum =
            (((p.2.take k).map (fun a => pytrunc a.required_amount)).sum : ℤ) := by
    intro r _ p _ h2 k
    have lhs : (r.stops.take k).map (fun s => pytrunc s.required_amount) =
        ((r.stops.map (fun s => s.required_amount)).map pytrunc).take k := by
      rw [List.map_take, List.map_map]
      rfl
    have rhs : (p.2.take k).map (fun a => pytrunc a.required_amount) =
        ((p.2.map (fun a => a.required_amount)).map pytrunc).take k := by
      rw [List.map_take, List.map_map]
      rfl
    rw [lhs, rhs, h2]
  have part1 : ∀ r ∈ (extract_solution dist depotLoc vehicles sol).routes,
      ∀ k : ℕ,
      (((r.stops.take k).map (fun s => pytrunc s.required_amount)).sum : ℤ) ≤
        pytrunc r.vehicle_capacity := by
    intro r hr k
    rcases key r hr with ⟨p, hp, h1, h2, _⟩
    rw [h1, prefix_sums_trunc r hr p hp h2 k]
    exact hfeas.2 p hp k
  refine ⟨part1, ?_⟩
  intro hint r hr
  rcases key r hr with ⟨p, hp, h1, h2, h3⟩
  rcases hint p hp with ⟨⟨zc, hzc⟩, hints⟩
  have hvals : ∀ x ∈ r.stops.map (fun s => s.required_amount),
      ∃ z : ℤ, x = (z : ℚ) := by
    intro x hx
    rw [h2] at hx
    rcases List.mem_map.mp hx with ⟨a, ha, hax⟩
    rcases hints a ha with ⟨z, hz⟩
    exact ⟨z, by rw [← hax, hz]⟩
  have hcap_trunc : pytrunc r.vehicle_capacity = zc := by
    rw [h1, hzc, pytrunc_intCast]
  have hcap_val : r.vehicle_capacity = (zc : ℚ) := by rw [h1, hzc]
  have map_take_eq : ∀ k : ℕ,
      (r.stops.take k).map (fun s => pytrunc s.required_amount) =
        ((r.stops.map (fun s => s.required_amount)).take k).map pytrunc := by
    intro k
    rw [List.map_take, List.map_take, List.map_map]
    rfl
  have hpref : ∀ k : ℕ,
      ((r.stops.take k).map (fun s => s.required_amount)).sum ≤
        r.vehicle_capacity := by
    intro k
    rw [List.map_take, int_list_take_sum hvals k, hcap_val]
    have hp1 := part1 r hr k
    rw [hcap_trunc, map_take_eq k] at hp1
    exact_mod_cast hp1
  refine ⟨hpref, ?_⟩
  have hmm : (r.stops.map (fun s => s.required_amount)).map pytrunc =
      r.stops.map (fun s => pytrunc s.required_amount) := by
    rw [List.map_map]
    rfl
  have hfull : (r.stops.map (fun s => s.required_amount)).sum =
      (((r.stops.map (fun s => pytrunc s.required_amount)).sum : ℤ) : ℚ) := by
    have h := int_list_take_sum hvals
      (r.stops.map (fun s => s.required_amount)).length
    rw [List.take_length, hmm] at h
    exact h
  have hround : r.total_load =
      (((r.stops.map (fun s => pytrunc s.required_amount)).sum : ℤ) : ℚ) := by
    rw [h3, ← h2, hfull]
    exact pyround_eq_self ((r.stops.map (fun s => pytrunc s.required_amount)).sum
      * 100) (by push_cast; ring)
  have hp1 := part1 r hr r.stops.length
  rw [hcap_trunc, List.take_length] at hp1
  rw [hround, hcap_val]
  exact_mod_cast hp1

/-- Fixture: a refill candidate with the fractional required amount
100000.5. -/
def c1atm : AtmVisit :=
  { id := 7
    name := "A"
    location := "L"
    latitude := 0
    longitude := 0
    required_amount := 200001/2
    predicted_demand := 0 }

/-- Fixture: a vehicle of capacity 100000. -/
def c1veh : Vehicle :=
  { id := 1
    name := "V"
    capacity := 100000
    fuel_cost_per_km := none }

/-- C1 counterexample: the solver checks the int-truncated demand
int(100000.5) = 100000 against int(100000), so assigning the candidate
to the vehicle is solver-feasible, yet the extracted route reports
total_load 100000.5, which exceeds the vehicle_capacity 100000: the
claimed raw-amount prefix invariant fails on fractional amounts. -/
theorem optimize_routes_capacity_counterexample :
    solver_feasible [c1veh] [[c1atm]] ∧
    ((extract_solution taxi_dist (0, 0) [c1veh] [[c1atm]]).routes.map
      (fun r => r.total_load)) = [200001/2] ∧
    ((extract_solution taxi_dist (0, 0) [c1veh] [[c1atm]]).routes.map
      (fun r => r.vehicle_capacity)) = [100000] ∧
    ¬ ((200001/2 : ℚ) ≤ 100000) := by
  have htr : pytrunc ((200001 : ℚ)/2) = 100000 := by
    norm_num [pytrunc]
  have htc : pytrunc ((100000 : ℚ)) = 100000 := by
    norm_num [pytrunc]
  refine ⟨⟨rfl, ?_⟩, ?_, ?_, by norm_num⟩
  · intro p hp k
    rcases List.mem_singleton.mp hp with rfl
    cases k with
    | zero =>
      show (0 : ℤ) ≤ pytrunc ((100000 : ℚ))
      rw [htc]
      norm_num
    | succ k =>
      show (([c1atm].take (k + 1)).map (fun a => pytrunc a.required_amount)).sum
        ≤ pytrunc (100000 : ℚ)
      rw [htc]
      simp only [List.take_succ_cons, List.take_nil, List.map_cons,
        List.map_nil, List.sum_cons, List.sum_nil, add_zero]
      show pytrunc c1atm.required_amount ≤ 100000
      show pytrunc ((200001 : ℚ)/2) ≤ 100000
      rw [htr]
  · simp [extract_solution, extract_route, c1atm]
    exact pyround_eq_self 10000050 (by norm_num)
  · simp [extract_solution, extract_route, c1atm, c1veh]

/-- Fixture: a candidate with a whole required amount, for the witness. -/
def w1atm : AtmVisit :=
  { id := 8
    name := "B"
    location := "L"
    latitude := 0
    longitude := 0
    required_amount := 60000
    predicted_demand := 0 }

theorem optimize_routes_capacity_witness :
    solver_feasible [c1veh] [[w1atm]] ∧
    ((extract_solution taxi_dist (0, 0) [c1veh] [[w1atm]]).routes.map
      VehicleRoute.total_load).sum ≤
    ((extract_solution taxi_dist (0, 0) [c1veh] [[w1atm]]).routes.map
      VehicleRoute.vehicle_capacity).sum := by
  have htc : pytrunc ((100000 : ℚ)) = 100000 := by norm_num [pytrunc]
  have htw : pytrunc ((60000 : ℚ)) = 60000 := by norm_num [pytrunc]
  have hfeas : solver_feasible [c1veh] [[w1atm]] := by
    refine ⟨rfl, ?_⟩
    intro p hp k
    rcases List.mem_singleton.mp hp with rfl
    cases k with
    | zero =>
      show (0 : ℤ) ≤ pytrunc ((100000 : ℚ))
      rw [htc]
      norm_num
    | succ k =>
      show (([w1atm].take (k + 1)).map (fun a => pytrunc a.required_amount)).sum
        ≤ pytrunc (100000 : ℚ)
      rw [htc]
      simp only [List.take_succ_cons, List.take_nil, List.map_cons,
        List.map_nil, List.sum_cons, List.sum_nil, add_zero]
      show pytrunc ((60000 : ℚ)) ≤ 100000
      rw [htw]
      norm_num
  refine ⟨hfeas, ?_⟩
  have hint : ∀ p ∈ [c1veh].zip [[w1atm]],
      (∃ z : ℤ, p.1.capacity = (z : ℚ)) ∧
      ∀ a ∈ p.2, ∃ z : ℤ, a.required_amount = (z : ℚ) := by
    intro p hp
    rcases List.mem_singleton.mp hp with rfl
    refine ⟨⟨100000, by norm_num [c1veh]⟩, ?_⟩
    intro a ha
    rcases List.mem_singleton.mp ha with rfl
    exact ⟨60000, by norm_num [w1atm]⟩
  have H := (optimize_routes_capacity taxi_dist (0, 0) [c1veh] [[w1atm]]
    hfeas).2 hint
  exact List.sum_le_sum (fun r hr => (H r hr).2)

/-- Fixture: a dispenser with no trained model whose two stored
transactions span 35 days of history. -/
def c7env : PredictEnv :=
  { hasDb := true
    atmExists := true
    transactions := [(40, 100), (5, 100)]
    systemTransactions := []
    todayWeekday := 0
    hasTrainedModelFile := false
    trainedModelOutput := none
    nearestResult := some 12345
    jitter := fun _ => 0 }

/-- C7 counterexample: a dispenser without a trained model whose
observed transaction history spans 35 days (transactions 40 and 5 days
ago) but holds only 2 transactions is resolved through the
nearest-neighbor tier, not the historical-average tier: the code's
trigger is a count of at least 30 stored transactions, not 30 days of
observed history. -/
theorem historical_tier_counterexample :
    c7env.hasTrainedModelFile = false ∧
    ((40 : ℚ), (100 : ℚ)) ∈ c7env.transactions ∧
    ((5 : ℚ), (100 : ℚ)) ∈ c7env.transactions ∧
    (30 : ℚ) ≤ 40 - 5 ∧
    choose_auto_method c7env = "nearest" ∧
    get_prediction_for_atm c7env 7 =
      { predictions := PredVal.scalar 12345, method := "nearest_neighbor" } := by
  refine ⟨rfl, by simp [c7env], by simp [c7env], by norm_num, rfl, rfl⟩

/-- C7 (amended): with a database session and at least 30 stored
transactions (a transaction count, not a day span), the auto method is
the historical tier; without a trained model file the resolved
predictions are the series of exactly days-many values, each the
historical average (mean amount per transaction of the last 30 days
times 50) shaped by 1.1 on weekdays and 0.8 on weekend days. -/
theorem historical_tier_spec (env : PredictEnv) (days : ℕ)
    (hdb : env.hasDb = true) (hcount : 30 ≤ env.transactions.length)
    (hfile : env.hasTrainedModelFile = false) :
    choose_auto_method env = "historical" ∧
    get_prediction_for_atm env days =
      { predictions := PredVal.series (predict_historical env days)
        method := "historical_average" } ∧
    (predict_historical env days).length = days ∧
    ∀ i < days, (predict_historical env days).get? i =
      some (if (env.todayWeekday + i) % 7 < 5
        then get_historical_average env 30 * (11/10)
        else get_historical_average env 30 * (4/5)) := by
  have hchoose : choose_auto_method env = "historical" := by
    simp [choose_auto_method, hdb, hcount]
  refine ⟨hchoose, ?_, by simp [predict_historical], ?_⟩
  · have hmeta : prediction_metadata_method env = "historical_average" := by
      simp [prediction_metadata_method, hfile, hdb, hcount]
    have hfb : fallback_predict_auto env days =
        PredVal.series (predict_historical env days) := by
      rw [fallback_predict_auto, hchoose]
      simp
    rw [get_prediction_for_atm, hfile]
    simp [hfb, hmeta]
  · intro i hi
    have hmap : (predict_historical env days).get? i =
        ((List.range days).get? i).map
          (fun j => if (env.todayWeekday + j) % 7 < 5
            then get_historical_average env 30 * (11/10)
            else get_historical_average env 30 * (4/5)) := by
      simp only [predict_historical]
      exact List.get?_map _ _ _
    rw [hmap, List.get?_range hi]
    rfl

/-- Fixture: the dispenser of c7env with 30 stored transactions. -/
def w7env : PredictEnv :=
  { c7env with transactions := List.replicate 30 ((1 : ℚ), (100 : ℚ)) }

theorem historical_tier_spec_witness :
    w7env.hasDb = true ∧ 30 ≤ w7env.transactions.length ∧
    choose_auto_method w7env = "historical" :=
  ⟨rfl, by simp [w7env],
    (historical_tier_spec w7env 7 rfl (by simp [w7env]) rfl).1⟩

/-- Fixture: a dispenser with a trained model file and a registered
model whose forecast at the requested horizon is the series 1, 2, 3. -/
def c2env : PredictEnv :=
  { hasDb := true
    atmExists := true
    transactions := []
    systemTransactions := []
    todayWeekday := 0
    hasTrainedModelFile := true
    trainedModelOutput := some [1, 2, 3]
    nearestResult := none
    jitter := fun _ => 0 }

/-- C2: at horizon 7 with a trained model present, get_prediction_for_atm
returns the single float 3 (the final value of the model's forecast) as
its predictions value, not a sequence of 7 values: the trained-model
tier (and likewise the nearest-neighbor tier, whose
_predict_nearest_neighbor returns the same bare float despite its
declared return type of a float list) violates the horizon-length
sequence contract. -/
theorem forecast_scalar_bug :
    get_prediction_for_atm c2env 7 =
      { predictions := PredVal.scalar 3, method := "trained_model" } ∧
    seriesOfLength (get_prediction_for_atm c2env 7).predictions 7 = false := by
  have hpd : predict_demand (some [(1 : ℚ), 2, 3]) = 3 := by
    show max 0 (3 : ℚ) = 3
    exact max_eq_right (by norm_num)
  constructor
  · calc get_prediction_for_atm c2env 7 =
        { predictions := PredVal.scalar (predict_demand (some [(1 : ℚ), 2, 3]))
          method := "trained_model" } := rfl
      _ = { predictions := PredVal.scalar 3, method := "trained_model" } := by
          rw [hpd]
  · rfl

/-- Fixture: a queued training job for dispenser 3. -/
def c4job : TrainingJob := TrainingJob.new 3 none

/-- Fixture: a job table holding exactly the queued job for dispenser 3. -/
def c4table : JobTable := fun i => if i = 3 then some c4job else none

/-- C4: when the table holds a queued or running job for the dispenser,
start_training returns that identical job object (same record, so same
start timestamp) and leaves the table unchanged: no new job is created,
and the table, keyed by dispenser id, still holds exactly that one job
for the dispenser. -/
theorem start_training_active_noop (jobs : JobTable) (atm_id : ℕ)
    (models : Option (List String)) (j : TrainingJob)
    (hj : jobs atm_id = some j)
    (hact : j.status = "queued" ∨ j.status = "running") :
    start_training jobs atm_id models = (j, jobs) ∧
    (start_training jobs atm_id models).1.started_at = j.started_at ∧
    (start_training jobs atm_id models).2 atm_id = some j := by
  have h : start_training jobs atm_id models = (j, jobs) := by
    simp only [start_training, hj]
    rw [if_pos hact]
  refine ⟨h, by rw [h], ?_⟩
  rw [h]
  exact hj

theorem start_training_active_noop_witness :
    c4table 3 = some c4job ∧ c4job.status = "queued" ∧
    start_training c4table 3 none = (c4job, c4table) :=
  ⟨by simp [c4table], rfl,
    (start_training_active_noop c4table 3 none c4job (by simp [c4table])
      (Or.inl rfl)).1⟩

/-- Fixture: a fresh job for dispenser 4 requesting both models. -/
def c9job : TrainingJob := TrainingJob.new 4 none

/-- Fixture: both models raise, with distinct error texts. -/
def c9outcome : String → TrainOutcome :=
  fun m => if m = "arima" then .raised "E1" else .raised "E2"

/-- C9 counterexample: when both requested models fail (errors E1 and
E2), the job ends failed but carries the fixed aggregate message, not
the last model error E2, and its results map is left empty (the
per-model error entries are never assigned to the job on this path). -/
theorem train_worker_all_failed_counterexample :
    (train_worker c9job none c9outcome none 10 20).status = "failed" ∧
    (train_worker c9job none c9outcome none 10 20).error =
      some all_failed_message ∧
    (train_worker c9job none c9outcome none 10 20).results = [] ∧
    all_failed_message ≠ "E2" := by
  refine ⟨rfl, rfl, rfl, by decide⟩

/-- C9 (amended): with the training data loaded, if at least one of the
attempted models succeeds and the post-training persistence succeeds the
job completes and its results map holds, for each attempted model, its
metrics or its error entry; if every attempted model fails the job ends
failed with the fixed aggregate message and an empty results map. -/
theorem train_worker_outcomes (job : TrainingJob)
    (outcome : String → TrainOutcome) (persist_error : Option String)
    (t1 t2 : ℕ) (hres : job.results = []) :
    ((successful_models (worker_results job.models outcome)).isEmpty = false →
      persist_error = none →
      (train_worker job none outcome persist_error t1 t2).status =
        "completed" ∧
      (train_worker job none outcome persist_error t1 t2).results =
        worker_results job.models outcome) ∧
    ((successful_models (worker_results job.models outcome)).isEmpty = true →
      (train_worker job none outcome persist_error t1 t2).status = "failed" ∧
      (train_worker job none outcome persist_error t1 t2).error =
        some all_failed_message ∧
      (train_worker job none outcome persist_error t1 t2).results = []) ∧
    (∀ m ∈ job.models, (m = "arima" ∨ m = "lstm") →
      (m, match outcome m with
        | .ok v => ModelResult.metrics v
        | .raised e => ModelResult.failure e) ∈
        worker_results job.models outcome) := by
  refine ⟨?_, ?_, ?_⟩
  · intro hE hpe
    subst hpe
    simp only [train_worker, hE, Bool.false_eq_true, if_false, ite_false]
    refine ⟨?_, ?_⟩ <;> first | rfl | trivial
  · intro hE
    simp only [train_worker, hE, if_true, ite_true]
    refine ⟨?_, ?_, ?_⟩ <;> first | rfl | trivial
  · intro m hm hm'
    rcases hm' with rfl | rfl
    · rw [worker_results, if_pos hm]
      exact List.mem_append_left _ (List.mem_singleton.mpr rfl)
    · rw [worker_results]
      refine List.mem_append_right _ ?_
      rw [if_pos hm]
      exact List.mem_singleton.mpr rfl

/-- Fixture: the arima model succeeds with metrics while lstm raises. -/
def w9outcome : String → TrainOutcome :=
  fun m => if m = "arima" then .ok [("mae", 5)] else .raised "boom"

theorem train_worker_outcomes_witness :
    c9job.results = [] ∧
    (successful_models (worker_results c9job.models w9outcome)).isEmpty =
      false ∧
    (train_worker c9job none w9outcome none 10 20).status = "completed" := by
  have hne : (successful_models (worker_results c9job.models w9outcome)).isEmpty
      = false := by decide
  exact ⟨rfl, hne,
    ((train_worker_outcomes c9job w9outcome none 10 20 rfl).1 hne rfl).1⟩

end SmartAtm
